import Mathlib

/-!
Verification development for the Email_classifier repository.

The repository has two source files: `app.py` (a Streamlit UI with a
`DeepSeekAI` analyser, a `GmailInbox` fetcher and an `EmailClassifierApp`
driver) and `databricks_client.py` (`DatabricksClient`, a thin HTTP
client).  The specification additionally documents an `AsyncJobClient`
(submit / await_result polling protocol) that does not appear under the
source tree; those operations are modelled from the spec, as marked.

Python dictionaries are embedded as association lists over a JSON-like
`Value` type; HTTP interactions are embedded by passing the remote's
response (or the fact that the request raised) as an explicit argument;
calls to `st.error` are embedded as an explicit list of emitted error
messages returned next to each operation's result.
-/

/-- JSON-like values, the embedding of Python dicts/lists/scalars. -/
inductive Value where
  | str (s : String)
  | num (q : ℚ)
  | bool (b : Bool)
  | null
  | arr (elems : List Value)
  | obj (fields : List (String × Value))

/-- An embedded Python dict: an association list from string keys to values. -/
abbrev Dict := List (String × Value)

/-- `d.get(k)`: first binding of key `k`, if any. -/
def dget (d : Dict) (k : String) : Option Value :=
  (d.find? (fun p => p.1 == k)).map (fun p => p.2)

/-- `d.get(k, default)`. -/
def dgetD (d : Dict) (k : String) (default : Value) : Value :=
  (dget d k).getD default

/-- The keys of an embedded dict, in order. -/
def dkeys (d : Dict) : List String := d.map (fun p => p.1)

/-- Does the character list start with the given needle? -/
def charsStartWith (needle : List Char) : List Char → Bool
  | [] => needle.isEmpty
  | c :: t =>
    match needle with
    | [] => true
    | n :: ns => n == c && charsStartWith ns t

/-- Does the character list contain the needle as a contiguous run? -/
def charsContain (needle : List Char) : List Char → Bool
  | [] => needle.isEmpty
  | c :: t => charsStartWith needle (c :: t) || charsContain needle t

/-- Python's `needle in haystack` on strings: substring containment. -/
def containsSub (haystack needle : String) : Bool :=
  charsContain needle.toList haystack.toList

/-- `any(word in text for word in words)` from the source. -/
def containsAny (text : String) (words : List String) : Bool :=
  words.any (fun w => containsSub text w)

/-- Python's `str.lower()`, embedded structurally over the character
list. -/
def strLower (s : String) : String := String.mk (s.toList.map Char.toLower)

/-! ## DeepSeekAI (app.py lines 19-201) -/

/-- Complaint keywords of `_fallback_analysis` (app.py line 125). -/
def complaintWords : List String :=
  ["worst", "terrible", "awful", "1/5", "one star", "refund", "angry"]

/-- Feedback keywords of `_fallback_analysis` (app.py line 130). -/
def feedbackWords : List String :=
  ["thank", "great", "good", "excellent", "awesome"]

/-- Inquiry keywords of `_fallback_analysis` (app.py line 135). -/
def inquiryWords : List String :=
  ["hello", "hi", "help", "information", "question"]

/-- Context-aware reply templates (`DeepSeekAI._generate_smart_reply`,
app.py lines 155-201), keyed on the category. -/
def _generate_smart_reply (category subject _body : String) : String :=
  if category == "Complaint" then
    "Dear Customer,\n\nWe sincerely apologize for the disappointing experience you've had with: \"" ++ subject ++ "\".\n\nThis is completely unacceptable and we take full responsibility. Our senior support team has been notified and will contact you within 1 hour to resolve this matter immediately.\n\nWe are committed to making this right and restoring your confidence in our service.\n\nSincerely,\nCustomer Relations Manager"
  else if category == "Feedback" then
    "Dear Customer,\n\nThank you so much for your wonderful feedback about: \"" ++ subject ++ "\"!\n\nWe're absolutely thrilled to hear about your positive experience! Your kind words have been shared with our entire team - this truly makes our day!\n\nWe look forward to continuing to provide you with outstanding service.\n\nWarmest regards,\nCustomer Experience Team"
  else if category == "Service Inquiry" then
    "Dear Customer,\n\nThank you for your inquiry: \"" ++ subject ++ "\".\n\nWe've received your message and our support team will get back to you within 1-2 business hours with the information you need.\n\nIn the meantime, feel free to browse our help center for quick answers to common questions.\n\nBest regards,\nCustomer Support Team"
  else
    "Dear Customer,\n\nThank you for your message: \"" ++ subject ++ "\".\n\nWe have received your inquiry and our team will review it shortly. We appreciate your patience and will respond as soon as possible.\n\nBest regards,\nCustomer Support Team"

/-- The category/priority/sentiment/reasoning if-chain of
`DeepSeekAI._fallback_analysis` (app.py lines 125-144), on the lowered
`full_text`. -/
def fallbackQuad (full_text : String) : String × String × String × String :=
  if containsAny full_text complaintWords then
    ("Complaint", "High", "Negative", "Customer expressed strong dissatisfaction")
  else if containsAny full_text feedbackWords then
    ("Feedback", "Low", "Positive", "Positive feedback detected")
  else if containsAny full_text inquiryWords then
    ("Service Inquiry", "Medium", "Neutral", "General inquiry detected")
  else
    ("Other", "Low", "Neutral", "General communication")

/-- `DeepSeekAI._fallback_analysis` (app.py lines 121-153): keyword
analysis of `(subject + " " + body).lower()`, returning the six-entry
dict the source builds, with confidence 0.75. -/
def _fallback_analysis (subject body : String) : Dict :=
  let full_text := strLower (subject ++ " " ++ body)
  match fallbackQuad full_text with
  | (category, priority, sentiment, reasoning) =>
    [("category", Value.str category),
     ("priority", Value.str priority),
     ("sentiment", Value.str sentiment),
     ("confidence", Value.num (3/4)),
     ("reasoning", Value.str reasoning),
     ("suggested_reply", Value.str (_generate_smart_reply category subject body))]

/-- The category/priority/sentiment if-chain of
`DeepSeekAI._parse_ai_response` (app.py lines 95-110), on the lowered AI
text. -/
def parseQuad (text_lower : String) : String × String × String :=
  if containsAny text_lower
      ["complaint", "angry", "frustrated", "worst", "terrible", "refund"] then
    ("Complaint", "High", "Negative")
  else if containsAny text_lower
      ["feedback", "positive", "thank", "good", "great", "excellent"] then
    ("Feedback", "Low", "Positive")
  else if containsAny text_lower ["inquiry", "question", "help", "information"] then
    ("Service Inquiry", "Medium", "Neutral")
  else
    ("Other", "Low", "Neutral")

/-- `DeepSeekAI._parse_ai_response` (app.py lines 90-119): keyword
analysis of the AI's raw text when its JSON does not parse, returning the
six-entry dict the source builds, with confidence 0.85. -/
def _parse_ai_response (text subject body : String) : Dict :=
  match parseQuad (strLower text) with
  | (category, priority, sentiment) =>
    [("category", Value.str category),
     ("priority", Value.str priority),
     ("sentiment", Value.str sentiment),
     ("confidence", Value.num (17/20)),
     ("reasoning", Value.str ("AI Analysis: " ++ (text.take 150) ++ "...")),
     ("suggested_reply", Value.str (_generate_smart_reply category subject body))]

/-- The remote DeepSeek interaction, seen from `analyze_email`: either an
HTTP 200 whose extracted message content is `content` and whose cleaned
content JSON-decodes to `parsed` (`none` embeds a `json.JSONDecodeError`),
or a non-200 status, or a raised exception. -/
inductive DeepSeekResponse where
  | http200 (content : String) (parsed : Option Dict)
  | httpErr (status : Nat)
  | exn (msg : String)

/-- `DeepSeekAI.analyze_email` (app.py lines 26-88), with the remote's
behaviour passed explicitly.  Returns the analysis dict together with the
list of `st.error` messages emitted. -/
def analyze_email (api_key : String) (resp : DeepSeekResponse)
    (subject body : String) : Dict × List String :=
  if api_key == "" then (_fallback_analysis subject body, [])
  else
    match resp with
    | DeepSeekResponse.http200 content parsed =>
      match parsed with
      | some d => (d, [])
      | none => (_parse_ai_response content subject body, [])
    | DeepSeekResponse.httpErr status =>
      (_fallback_analysis subject body,
       ["DeepSeek API error: " ++ toString status])
    | DeepSeekResponse.exn msg =>
      (_fallback_analysis subject body, ["AI analysis failed: " ++ msg])

/-- The situations in which `analyze_email` does not return the remote's
parsed JSON: missing API key, non-200 status, JSON-decode failure, or a
raised exception. -/
def isFallbackCase (api_key : String) (resp : DeepSeekResponse) : Bool :=
  api_key == "" ||
    (match resp with
     | DeepSeekResponse.http200 _ parsed => parsed.isNone
     | DeepSeekResponse.httpErr _ => true
     | DeepSeekResponse.exn _ => true)

/-- The six keys every keyword-based analysis dict carries. -/
def analysisKeys : List String :=
  ["category", "priority", "sentiment", "confidence", "reasoning", "suggested_reply"]

/-! ## DatabricksClient (databricks_client.py) -/

/-- What one `requests.post`/`requests.get` call comes back with: either a
response with a status code, a raw text body and the outcome of
`response.json()` (`none` embeds a decode failure raising), or a raised
exception (network timeout and the like). -/
inductive HttpResult where
  | response (status_code : Nat) (text : String) (jsonBody : Option Dict)
  | exn (msg : String)

/-- `DatabricksClient._make_databricks_request`
(databricks_client.py lines 31-53), with the remote's behaviour passed
explicitly.  Returns the decoded body (or `None`) together with the list
of `st.error` messages emitted. -/
def _make_databricks_request (res : HttpResult) : Option Dict × List String :=
  match res with
  | HttpResult.response status_code text jsonBody =>
    if status_code == 200 then
      match jsonBody with
      | some d => (some d, [])
      | none => (none, ["Request failed: JSONDecodeError"])
    else
      (none,
       ["Databricks API error: " ++ toString status_code ++ " - " ++ text])
  | HttpResult.exn msg => (none, ["Request failed: " ++ msg])

/-- The mutable attribute record of a `DatabricksClient` instance
(databricks_client.py lines 9-13). -/
structure DatabricksClient where
  databricks_host : Option String
  databricks_token : Option String
  deepseek_api_key : Option String
  gmail_token : Option String

/-- `DatabricksClient.__init__` (databricks_client.py lines 9-13): every
attribute starts as `None`. -/
def DatabricksClient.init : DatabricksClient :=
  ⟨none, none, none, none⟩

/-- Python truthiness of `d.get("success", False)` and similar values. -/
def valueTruthy : Value → Bool
  | Value.str s => s ≠ ""
  | Value.num q => q ≠ 0
  | Value.bool b => b
  | Value.null => false
  | Value.arr elems => !elems.isEmpty
  | Value.obj fields => !fields.isEmpty

/-- `DatabricksClient.connect_gmail` (databricks_client.py lines 55-67):
stores the supplied Gmail token on `self`, issues one request and reports
whether the remote answered with a truthy `success` field.  Returns the
updated client, the boolean result and the emitted `st.error` messages. -/
def connect_gmail (c : DatabricksClient) (gmail_token : String)
    (res : HttpResult) : DatabricksClient × Bool × List String :=
  let c' : DatabricksClient :=
    { databricks_host := c.databricks_host
      databricks_token := c.databricks_token
      deepseek_api_key := c.deepseek_api_key
      gmail_token := some gmail_token }
  match _make_databricks_request res with
  | (some d, errs) => (c', valueTruthy (dgetD d "success" (Value.bool false)), errs)
  | (none, errs) => (c', false, errs)

/-- `DatabricksClient.get_unread_emails` (databricks_client.py lines
69-84): one request; on a decoded body returns `result.get("emails", [])`,
otherwise the empty list.  Returns the value together with the emitted
`st.error` messages. -/
def get_unread_emails (res : HttpResult) : Value × List String :=
  match _make_databricks_request res with
  | (some d, errs) => (dgetD d "emails" (Value.arr []), errs)
  | (none, errs) => (Value.arr [], errs)

/-- `DatabricksClient.classify_email` (databricks_client.py lines
86-99): one request; returns the decoded body or `None`, with the emitted
`st.error` messages. -/
def classify_email (res : HttpResult) : Option Dict × List String :=
  _make_databricks_request res

/-- `DatabricksClient.test_connection` (databricks_client.py lines
101-107): one GET; truthy iff the decoded body's `status` equals
`"healthy"`.  The bare `except` swallows everything into `False` with no
message of its own. -/
def test_connection (res : HttpResult) : Bool × List String :=
  match _make_databricks_request res with
  | (some d, errs) =>
    ((match dget d "status" with
      | some (Value.str s) => s == "healthy"
      | _ => false), errs)
  | (none, errs) => (false, errs)

/-! ## GmailInbox (app.py lines 203-302) -/

/-- The parsed email record `GmailInbox._parse_email` produces
(app.py lines 276-284). -/
structure Email where
  id : String
  sender : String
  subject : String
  body : String
  snippet : String
  date : String

/-- `GmailInbox.fetch_unread_emails` (app.py lines 210-260), with the
remote's behaviour passed explicitly: `listRes` is what the unread-messages
listing request comes back with, and `detailStep` folds the per-message
detail request plus `_parse_email` (app.py lines 240-255) into one oracle
returning the parsed email when the detail request returns 200 and parsing
succeeds.  Returns the email list together with the list of error messages
shown to the user — the source surfaces none on any failure path. -/
def fetch_unread_emails (access_token : String) (listRes : HttpResult)
    (detailStep : Value → Option Email) : List Email × List String :=
  if access_token == "" then ([], [])
  else
    match listRes with
    | HttpResult.response status_code _text jsonBody =>
      if status_code != 200 then ([], [])
      else
        match jsonBody with
        | none => ([], [])
        | some messages_data =>
          match dgetD messages_data "messages" (Value.arr []) with
          | Value.arr messages => (messages.filterMap detailStep, [])
          | _ => ([], [])
    | HttpResult.exn _ => ([], [])

/-- Does an operation's outcome carry the given remote message, either in
its displayed error messages or verbatim in nothing else the source
attaches?  Used to state the propagation policy. -/
def attachesMessage (errs : List String) (msg : String) : Bool :=
  errs.any (fun s => containsSub s msg)

/-! ## EmailClassifierApp.classify_inbox_emails (app.py lines 404-428) -/

/-- One entry of `st.session_state.classifications`, restricted to the
field the dedup guard reads (`email_id`, app.py line 416) plus the payload
it stores. -/
structure Classification where
  email_id : String
  payload : Dict

/-- `EmailClassifierApp.classify_inbox_emails` (app.py lines 404-428):
for each inbox email whose id is not yet among the stored classifications,
run the classifier and append its result when it returns one.  The guard
reads the same list that is being appended to, so the fold threads the
accumulator. -/
def classify_inbox_emails (classify : Email → Option Classification)
    (inbox : List Email) (classifications : List Classification) :
    List Classification :=
  inbox.foldl
    (fun acc email =>
      if acc.any (fun c => c.email_id == email.id) then acc
      else
        match classify email with
        | some result => acc ++ [result]
        | none => acc)
    classifications

/-! ## AsyncJobClient (spec sections 3, 4.1 and 6)

The spec's `AsyncJobClient` — `submit` and `await_result` over the
run-now / runs-get / runs-get-output endpoints — has no implementation
under the source tree; only the thin request helper
`DatabricksClient._make_databricks_request` is present.  The operations
below are therefore modelled from the spec, with the remote's successive
answers passed in explicitly and each operation also returning how many
network calls it issued. -/

/-- Modelled from the spec: a `JobSubmission` value (spec section 3);
the concrete submission type is missing from the source tree. -/
structure JobSubmission where
  job_id : String
  parameters : Dict

/-- Modelled from the spec: a `JobHandle` (spec section 3); the concrete
handle type is missing from the source tree. -/
structure JobHandle where
  run_id : String
  submitted_at : Nat

/-- Modelled from the spec: the typed `SubmissionError` (spec sections
4.1 and 7) carrying the raw status/response text; missing from the source
tree. -/
structure SubmissionError where
  message : String

/-- Modelled from the spec: the error text `submit` attaches on each
non-success shape — the raw status and response text on a non-200, the
exception text on a network timeout, the raw body text on a malformed
response. -/
def submitErrMsg : HttpResult → String
  | HttpResult.response status_code text _ =>
    toString status_code ++ " - " ++ text
  | HttpResult.exn msg => msg

/-- Modelled from the spec: does the run-now response have the one
success shape, HTTP 200 with a string `run_id` in the decoded body? -/
def submitOkShape : HttpResult → Bool
  | HttpResult.response status_code _ (some d) =>
    status_code == 200 &&
      (match dget d "run_id" with
       | some (Value.str _) => true
       | _ => false)
  | _ => false

/-- Modelled from the spec: `AsyncJobClient.submit` (spec section 4.1),
missing from the source tree.  `remote i` is the answer the remote would
give to the i-th run-now request; the operation issues exactly one such
request (no retry at this layer) and returns either a `JobHandle`
carrying the run identifier from the response body or a
`SubmissionError`, together with the number of requests issued. -/
def submit (_job : JobSubmission) (remote : Nat → HttpResult) (now : Nat) :
    Except SubmissionError JobHandle × Nat :=
  match remote 0 with
  | HttpResult.response status_code text jsonBody =>
    if status_code == 200 then
      match jsonBody with
      | some d =>
        match dget d "run_id" with
        | some (Value.str rid) => (Except.ok ⟨rid, now⟩, 1)
        | _ => (Except.error ⟨submitErrMsg (HttpResult.response status_code text jsonBody)⟩, 1)
      | none => (Except.error ⟨submitErrMsg (HttpResult.response status_code text jsonBody)⟩, 1)
    else
      (Except.error ⟨submitErrMsg (HttpResult.response status_code text jsonBody)⟩, 1)
  | HttpResult.exn msg => (Except.error ⟨submitErrMsg (HttpResult.exn msg)⟩, 1)

/-- Modelled from the spec: the remote job's terminal result states
(spec section 3). -/
inductive ResultState where
  | Success
  | Failed
  | InternalError
  | Skipped
deriving DecidableEq, Repr

/-- Modelled from the spec: the remote job's reported lifecycle state
(spec section 3). -/
inductive LifecycleState where
  | Pending
  | Running
  | Terminated (r : ResultState)
deriving DecidableEq, Repr

/-- Modelled from the spec: the outcome of one polling sequence
(spec section 3). -/
inductive JobOutcome where
  | Success (payload : Value)
  | Failure (reason : String)
  | Timeout (attempts_made : Nat)

/-- Is the reported state still non-terminal (`Pending` or `Running`)? -/
def stillGoing : LifecycleState → Bool
  | LifecycleState.Pending => true
  | LifecycleState.Running => true
  | LifecycleState.Terminated _ => false

/-- Modelled from the spec: one iteration of the poll loop of
`await_result` (spec section 4.1) at attempt `k`, given what the status
request reported (state and state message), the fetched-and-decoded
output (`Except.error` embeds a failed fetch or an unparseable payload)
and the value of continuing to the next attempt.  Returns the outcome,
the total status calls made and the output-fetch calls made. -/
def pollStep (st : LifecycleState × String) (output : Except String Value)
    (k : Nat) (cont : JobOutcome × Nat × Nat) : JobOutcome × Nat × Nat :=
  match st with
  | (LifecycleState.Pending, _) => cont
  | (LifecycleState.Running, _) => cont
  | (LifecycleState.Terminated ResultState.Success, _) =>
    match output with
    | Except.ok payload => (JobOutcome.Success payload, k, 1)
    | Except.error reason => (JobOutcome.Failure reason, k, 1)
  | (LifecycleState.Terminated _, msg) => (JobOutcome.Failure msg, k, 0)

/-- Modelled from the spec: the poll loop of `await_result`
(spec section 4.1) with `made` attempts already made and `remaining`
attempts left in the budget.  `status k` is what the k-th status request
reports (1-indexed). -/
def awaitAux (status : Nat → LifecycleState × String)
    (output : Except String Value) :
    Nat → Nat → JobOutcome × Nat × Nat
  | made, 0 => (JobOutcome.Timeout made, made, 0)
  | made, remaining + 1 =>
    pollStep (status (made + 1)) output (made + 1)
      (awaitAux status output (made + 1) remaining)

/-- Modelled from the spec: `AsyncJobClient.await_result`
(spec section 4.1), missing from the source tree.  Polls up to
`max_attempts` times; on `Terminated(Success)` issues one output fetch
whose decoded payload (or failure) is `output`.  Returns the outcome,
the number of status calls issued and the number of output-fetch calls
issued. -/
def await_result (status : Nat → LifecycleState × String)
    (output : Except String Value) (max_attempts : Nat) :
    JobOutcome × Nat × Nat :=
  awaitAux status output 0 max_attempts

/-! ## Concrete fixtures used to instantiate the theorems -/

/-- A concrete job submission. -/
def wjob1 : JobSubmission := ⟨"job-42", [("email_body", Value.str "hello")]⟩

/-- A remote that answers every run-now request with HTTP 200 and a
`run_id`. -/
def wremote1 : Nat → HttpResult :=
  fun _ => HttpResult.response 200 "ok" (some [("run_id", Value.str "run-7")])

/-- A concrete job submission. -/
def wjob2 : JobSubmission := ⟨"job-43", []⟩

/-- A remote that answers every run-now request with HTTP 500. -/
def wremote2 : Nat → HttpResult :=
  fun _ => HttpResult.response 500 "Internal error" none

/-- A status oracle: `Running` on attempt 1, then `Terminated(Failed)`. -/
def wstatus3 : Nat → LifecycleState × String :=
  fun i =>
    if i ≤ 1 then (LifecycleState.Running, "")
    else (LifecycleState.Terminated ResultState.Failed, "task failed")

/-- A status oracle that always reports `Running`. -/
def wstatus4 : Nat → LifecycleState × String :=
  fun _ => (LifecycleState.Running, "")

/-- A status oracle: `Pending` on attempts 1-2, then
`Terminated(Success)`. -/
def wstatus5 : Nat → LifecycleState × String :=
  fun i =>
    if i ≤ 2 then (LifecycleState.Pending, "")
    else (LifecycleState.Terminated ResultState.Success, "done")

/-- A failed Gmail listing response with a remote error text. -/
def wlistRes6 : HttpResult :=
  HttpResult.response 500 "Remote listing failed" none

/-- A detail-step oracle that parses no message. -/
def wdetail6 : Value → Option Email := fun _ => none

/-- A client as it stands right after `initialize` populated the three
configuration secrets. -/
def wclient7 : DatabricksClient :=
  ⟨some "https://dbx.example", some "secret-bearer", some "ds-key", none⟩

/-- A concrete inbox email. -/
def wemail10 : Email := ⟨"m1", "a@example.com", "Hi", "Body", "snip", "today"⟩

/-- A deterministic classifier that classifies every email, tagging the
result with the email's id the way `classify_with_ai` does
(app.py line 394). -/
def wclassify10 : Email → Option Classification :=
  fun e => some ⟨e.id, [("category", Value.str "Other")]⟩

/-! ## Helper lemmas -/

/-- Every character list starts with itself. -/
theorem charsStartWith_refl (l : List Char) : charsStartWith l l = true := by
  induction l with
  | nil => rfl
  | cons c t ih => simp [charsStartWith, ih]

/-- A character list contains any of its suffixes. -/
theorem charsContain_append (needle pre : List Char) :
    charsContain needle (pre ++ needle) = true := by
  induction pre with
  | nil =>
    cases needle with
    | nil => rfl
    | cons c t =>
      simp only [List.nil_append, charsContain, charsStartWith_refl, Bool.true_or]
  | cons p ps ih => simp [charsContain, ih]

/-- A string contains any of its suffixes as a substring. -/
theorem containsSub_suffix (a t : String) : containsSub (a ++ t) t = true := by
  unfold containsSub
  have h : (a ++ t).toList = a.toList ++ t.toList := by
    simp [String.toList, String.data_append]
  rw [h]
  exact charsContain_append t.toList a.toList

/-- A still-running status lets the poll loop continue. -/
theorem pollStep_going (st : LifecycleState × String) (output : Except String Value)
    (k : Nat) (cont : JobOutcome × Nat × Nat) (h : stillGoing st.1 = true) :
    pollStep st output k cont = cont := by
  rcases st with ⟨s, msg⟩
  cases s <;> simp_all [pollStep, stillGoing]

/-- A non-success terminal status stops the poll loop with a `Failure`
carrying the state message, after no output fetch. -/
theorem pollStep_failed (s : ResultState) (msg : String) (output : Except String Value)
    (k : Nat) (cont : JobOutcome × Nat × Nat) (h : s ≠ ResultState.Success) :
    pollStep (LifecycleState.Terminated s, msg) output k cont =
      (JobOutcome.Failure msg, k, 0) := by
  cases s <;> simp_all [pollStep]

/-- Exhausting the budget over still-running statuses yields `Timeout`
with the full attempt count and no output fetch. -/
theorem awaitAux_timeout (status : Nat → LifecycleState × String)
    (output : Except String Value) (remaining made : Nat)
    (h : ∀ i, made < i → i ≤ made + remaining → stillGoing (status i).1 = true) :
    awaitAux status output made remaining =
      (JobOutcome.Timeout (made + remaining), made + remaining, 0) := by
  induction remaining generalizing made with
  | zero => simp [awaitAux]
  | succ r ih =>
    simp only [awaitAux]
    rw [pollStep_going _ _ _ _ (h (made + 1) (by omega) (by omega))]
    have h' : ∀ i, made + 1 < i → i ≤ made + 1 + r → stillGoing (status i).1 = true :=
      fun i h1 h2 => h i (by omega) (by omega)
    rw [ih (made + 1) h']
    have e : made + 1 + r = made + (r + 1) := by omega
    rw [e]

/-- A non-success terminal status observed at attempt `k` inside the
budget stops the loop with `Failure`, `k` status calls and no output
fetch. -/
theorem awaitAux_failed (status : Nat → LifecycleState × String)
    (output : Except String Value) (rs : ResultState)
    (hrs : rs ≠ ResultState.Success) (remaining made k : Nat)
    (h1 : made < k) (h2 : k ≤ made + remaining)
    (hPR : ∀ i, made < i → i < k → stillGoing (status i).1 = true)
    (hk : (status k).1 = LifecycleState.Terminated rs) :
    awaitAux status output made remaining =
      (JobOutcome.Failure (status k).2, k, 0) := by
  induction remaining generalizing made with
  | zero => omega
  | succ r ih =>
    by_cases hke : k = made + 1
    · subst hke
      simp only [awaitAux]
      rcases hst : status (made + 1) with ⟨s, msg⟩
      rw [hst] at hk
      simp only at hk
      subst hk
      rw [pollStep_failed rs msg output (made + 1) _ hrs]
    · simp only [awaitAux]
      rw [pollStep_going _ _ _ _ (hPR (made + 1) (by omega) (by omega))]
      exact ih (made + 1) (by omega) (by omega)
        (fun i a b => hPR i (by omega) b)

/-- A successful terminal status at attempt `k` with an unreadable output
stops the loop with `Failure`, `k` status calls and exactly one output
fetch. -/
theorem awaitAux_success_badOutput (status : Nat → LifecycleState × String)
    (e : String) (remaining made k : Nat)
    (h1 : made < k) (h2 : k ≤ made + remaining)
    (hPR : ∀ i, made < i → i < k → stillGoing (status i).1 = true)
    (hk : (status k).1 = LifecycleState.Terminated ResultState.Success) :
    awaitAux status (Except.error e) made remaining =
      (JobOutcome.Failure e, k, 1) := by
  induction remaining generalizing made with
  | zero => omega
  | succ r ih =>
    by_cases hke : k = made + 1
    · subst hke
      simp only [awaitAux]
      rcases hst : status (made + 1) with ⟨s, msg⟩
      rw [hst] at hk
      simp only at hk
      subst hk
      rfl
    · simp only [awaitAux]
      rw [pollStep_going _ _ _ _ (hPR (made + 1) (by omega) (by omega))]
      exact ih (made + 1) (by omega) (by omega)
        (fun i a b => hPR i (by omega) b)

/-! ## Claim theorems -/

/-- C1: for every job submission for which the remote endpoint returns
HTTP 200 with a run identifier in the response body, `submit` returns a
`JobHandle` carrying that exact run identifier (and issues exactly one
request). -/
theorem submit_ok_returns_run_id (job : JobSubmission)
    (remote : Nat → HttpResult) (now : Nat) (text : String) (d : Dict)
    (rid : String) (hresp : remote 0 = HttpResult.response 200 text (some d))
    (hrid : dget d "run_id" = some (Value.str rid)) :
    submit job remote now = (Except.ok ⟨rid, now⟩, 1) := by
  simp [submit, hresp, hrid]

/-- C1 witness: a mocked remote answering HTTP 200 with run id `run-7`
yields a handle with run id `run-7`. -/
theorem submit_ok_returns_run_id_witness :
    submit wjob1 wremote1 11 = (Except.ok ⟨"run-7", 11⟩, 1) :=
  submit_ok_returns_run_id wjob1 wremote1 11 "ok"
    [("run_id", Value.str "run-7")] "run-7" rfl rfl

/-- C2: whenever the remote's run-now answer is not HTTP 200 with a
string `run_id` in the decoded body — a non-200 status, a network
timeout/exception, or a malformed response body — `submit` returns a
`SubmissionError` carrying the raw status/response text, returns no
handle, and issues exactly one request (no retry). -/
theorem submit_err_no_handle_no_retry (job : JobSubmission)
    (remote : Nat → HttpResult) (now : Nat)
    (h : submitOkShape (remote 0) = false) :
    submit job remote now =
      (Except.error ⟨submitErrMsg (remote 0)⟩, 1) := by
  rcases hresp : remote 0 with ⟨status_code, text, jsonBody⟩ | msg
  · rw [hresp] at h
    by_cases h200 : status_code = 200
    · subst h200
      cases jsonBody with
      | none => simp [submit, hresp]
      | some d =>
        simp only [submitOkShape] at h
        simp only [submit, hresp]
        rcases hget : dget d "run_id" with _ | v
        · simp [hget]
        · cases v <;> simp_all [hget]
    · simp only [submit, hresp]
      have : (status_code == 200) = false := by simp [h200]
      simp [this]
  · simp [submit, hresp]

/-- C2 witness: a mocked remote answering HTTP 500 yields a
`SubmissionError` carrying `500 - Internal error` after exactly one
request. -/
theorem submit_err_no_handle_no_retry_witness :
    submit wjob2 wremote2 0 =
      (Except.error ⟨"500 - Internal error"⟩, 1) :=
  submit_err_no_handle_no_retry wjob2 wremote2 0 rfl

/-- C3: if a status request reports a terminal non-success state
(`Failed`, `InternalError` or `Skipped`) at attempt `k` within the
budget, after only `Pending`/`Running` reports before it, `await_result`
returns `Failure` immediately: exactly `k` status calls (attempts
`k+1..max_attempts` do not occur) and no output fetch. -/
theorem await_result_failed_short_circuits
    (status : Nat → LifecycleState × String) (output : Except String Value)
    (max_attempts k : Nat) (rs : ResultState)
    (hrs : rs ≠ ResultState.Success) (h1 : 1 ≤ k) (h2 : k ≤ max_attempts)
    (hPR : ∀ i, 1 ≤ i → i < k → stillGoing (status i).1 = true)
    (hk : (status k).1 = LifecycleState.Terminated rs) :
    await_result status output max_attempts =
      (JobOutcome.Failure (status k).2, k, 0) :=
  awaitAux_failed status output rs hrs max_attempts 0 k h1 (by omega)
    (fun i a b => hPR i a b) hk

/-- C3 witness: a remote reporting `Running` then `Terminated(Failed)`
stops after 2 of 5 attempts with `Failure "task failed"` and no output
fetch. -/
theorem await_result_failed_short_circuits_witness :
    await_result wstatus3 (Except.ok Value.null) 5 =
      (JobOutcome.Failure "task failed", 2, 0) :=
  await_result_failed_short_circuits wstatus3 (Except.ok Value.null) 5 2
    ResultState.Failed (by decide) (by omega) (by omega)
    (by
      intro i hi1 hi2
      have he : i = 1 := by omega
      subst he
      rfl)
    rfl

/-- C4: with `max_attempts ≥ 1`, if every status request up to
`max_attempts` reports `Pending` or `Running`, `await_result` returns
`Timeout` with `attempts_made = max_attempts`, after exactly
`max_attempts` status calls and zero output-fetch calls. -/
theorem await_result_timeout_exhausts
    (status : Nat → LifecycleState × String) (output : Except String Value)
    (max_attempts : Nat) (_hmax : 1 ≤ max_attempts)
    (hPR : ∀ i, 1 ≤ i → i ≤ max_attempts → stillGoing (status i).1 = true) :
    await_result status output max_attempts =
      (JobOutcome.Timeout max_attempts, max_attempts, 0) := by
  have h := awaitAux_timeout status output max_attempts 0
    (fun i a b => hPR i a (by omega))
  simpa [await_result] using h

/-- C4 witness: a remote that always reports `Running` exhausts a
3-attempt budget into `Timeout` with 3 status calls and no output
fetch. -/
theorem await_result_timeout_exhausts_witness :
    await_result wstatus4 (Except.ok Value.null) 3 =
      (JobOutcome.Timeout 3, 3, 0) :=
  await_result_timeout_exhausts wstatus4 (Except.ok Value.null) 3
    (by omega) (fun i _ _ => rfl)

/-- C5: if the first terminal report is `Terminated(Success)` at attempt
`k` within the budget but the output fetch fails or its payload cannot be
parsed as JSON, `await_result` returns `Failure` with exactly `k` status
calls (no further polling) and exactly one output-fetch call (no
re-fetch). -/
theorem await_result_bad_output_no_retry
    (status : Nat → LifecycleState × String) (e : String)
    (max_attempts k : Nat) (h1 : 1 ≤ k) (h2 : k ≤ max_attempts)
    (hPR : ∀ i, 1 ≤ i → i < k → stillGoing (status i).1 = true)
    (hk : (status k).1 = LifecycleState.Terminated ResultState.Success) :
    await_result status (Except.error e) max_attempts =
      (JobOutcome.Failure e, k, 1) :=
  awaitAux_success_badOutput status e max_attempts 0 k h1 (by omega)
    (fun i a b => hPR i a b) hk

/-- C5 witness: `Pending, Pending, Terminated(Success)` with an
unparseable output yields `Failure "bad json"` after 3 of 9 status calls
and exactly one output fetch. -/
theorem await_result_bad_output_no_retry_witness :
    await_result wstatus5 (Except.error "bad json") 9 =
      (JobOutcome.Failure "bad json", 3, 1) :=
  await_result_bad_output_no_retry wstatus5 "bad json" 9 3
    (by omega) (by omega)
    (by
      intro i hi1 hi2
      have he : i = 1 ∨ i = 2 := by omega
      rcases he with he | he <;> (subst he; rfl))
    rfl

/-- C6 counterexample: the claim that no operation maps a remote error to
a bare default without the remote message attached fails on
`GmailInbox.fetch_unread_emails`: a listing request answered HTTP 500
with body `Remote listing failed` is mapped to the empty email list with
no message shown anywhere — the remote text is attached to nothing. -/
theorem fetch_unread_emails_swallows_counterexample :
    fetch_unread_emails "tok" wlistRes6 wdetail6 = ([], []) ∧
      attachesMessage (fetch_unread_emails "tok" wlistRes6 wdetail6).2
        "Remote listing failed" = false :=
  ⟨rfl, rfl⟩

/-- C6 amended: the request layer of `DatabricksClient` does attach the
original remote message — every non-200 response surfaces an `st.error`
carrying the raw status and response text, and `get_unread_emails`
surfaces that message while returning the empty default — but
`GmailInbox.fetch_unread_emails` maps a failed listing request to the
empty list with no message attached anywhere. -/
theorem remote_error_propagation_amended (status_code : Nat) (text : String)
    (b : Option Dict) (tok : String) (detail : Value → Option Email)
    (h : status_code ≠ 200) :
    _make_databricks_request (HttpResult.response status_code text b) =
      (none, ["Databricks API error: " ++ toString status_code ++ " - " ++ text]) ∧
    attachesMessage
      (_make_databricks_request (HttpResult.response status_code text b)).2
      text = true ∧
    get_unread_emails (HttpResult.response status_code text b) =
      (Value.arr [], ["Databricks API error: " ++ toString status_code ++ " - " ++ text]) ∧
    fetch_unread_emails tok (HttpResult.response status_code text b) detail =
      ([], []) := by
  have hbeq : (status_code == 200) = false := by simp [h]
  have h1 : _make_databricks_request (HttpResult.response status_code text b) =
      (none, ["Databricks API error: " ++ toString status_code ++ " - " ++ text]) := by
    simp [_make_databricks_request, hbeq]
  refine ⟨h1, ?_, ?_, ?_⟩
  · rw [h1]
    simp only [attachesMessage, List.any_cons, List.any_nil, Bool.or_false]
    exact containsSub_suffix _ text
  · simp [get_unread_emails, h1]
  · simp [fetch_unread_emails, hbeq, h]

/-- C6 amended witness: at HTTP 500 with body `boom`, the request layer
emits the message carrying `boom`, `get_unread_emails` returns the empty
default next to it, and the Gmail fetch returns the bare empty pair. -/
theorem remote_error_propagation_amended_witness :
    _make_databricks_request (HttpResult.response 500 "boom" none) =
      (none, ["Databricks API error: 500 - boom"]) ∧
    attachesMessage
      (_make_databricks_request (HttpResult.response 500 "boom" none)).2
      "boom" = true ∧
    get_unread_emails (HttpResult.response 500 "boom" none) =
      (Value.arr [], ["Databricks API error: 500 - boom"]) ∧
    fetch_unread_emails "tok" (HttpResult.response 500 "boom" none) wdetail6 =
      ([], []) :=
  remote_error_propagation_amended 500 "boom" none "tok" wdetail6 (by omega)

/-- C7 counterexample: the claim that the client holds no mutable state
and no later operation mutates it fails on `connect_gmail`: called on a
freshly initialized client, it overwrites the stored `gmail_token`
attribute, which `get_unread_emails` later reads. -/
theorem connect_gmail_mutates_counterexample :
    (connect_gmail wclient7 "t0ken" (HttpResult.exn "down")).1.gmail_token ≠
      wclient7.gmail_token := by
  simp [connect_gmail, _make_databricks_request, wclient7]

/-- C7 amended: the bearer token and the other configuration secrets are
never mutated by any later operation — `connect_gmail`, the only
operation that writes to the client after initialization, preserves all
three — but the client does hold mutable state shared across calls:
`connect_gmail` overwrites `gmail_token`. -/
theorem bearer_token_immutable_amended (c : DatabricksClient) (t : String)
    (res : HttpResult) :
    (connect_gmail c t res).1.databricks_token = c.databricks_token ∧
    (connect_gmail c t res).1.databricks_host = c.databricks_host ∧
    (connect_gmail c t res).1.deepseek_api_key = c.deepseek_api_key ∧
    (connect_gmail c t res).1.gmail_token = some t := by
  rcases h : _make_databricks_request res with ⟨od, errs⟩
  cases od <;> simp [connect_gmail, h]

/-- The fallback analysis dict always carries exactly the six analysis
keys. -/
theorem dkeys_fallback_analysis (subject body : String) :
    dkeys (_fallback_analysis subject body) = analysisKeys := by
  rcases h : fallbackQuad (strLower (subject ++ " " ++ body)) with ⟨c, p, se, re⟩
  simp [_fallback_analysis, h, dkeys, analysisKeys]

/-- The AI-text parse dict always carries exactly the six analysis
keys. -/
theorem dkeys_parse_ai_response (text subject body : String) :
    dkeys (_parse_ai_response text subject body) = analysisKeys := by
  rcases h : parseQuad (strLower text) with ⟨c, p, se⟩
  simp [_parse_ai_response, h, dkeys, analysisKeys]

/-- C8: for every subject and body, whenever the API key is missing, the
API answers non-200, the answer's JSON does not decode, or the call
raises, `analyze_email` returns (rather than raising or returning `None`)
a dict carrying all six analysis keys, produced by one of the two
keyword-based analyses. -/
theorem analyze_email_fallback_safe (api_key : String)
    (resp : DeepSeekResponse) (subject body : String)
    (h : isFallbackCase api_key resp = true) :
    dkeys (analyze_email api_key resp subject body).1 = analysisKeys ∧
      ((analyze_email api_key resp subject body).1 =
          _fallback_analysis subject body ∨
        ∃ content parsed, resp = DeepSeekResponse.http200 content parsed ∧
          (analyze_email api_key resp subject body).1 =
            _parse_ai_response content subject body) := by
  by_cases hk : (api_key == "") = true
  · have he : analyze_email api_key resp subject body =
        (_fallback_analysis subject body, []) := by
      simp [analyze_email, hk]
    rw [he]
    exact ⟨dkeys_fallback_analysis subject body, Or.inl rfl⟩
  · cases resp with
    | http200 content parsed =>
      cases parsed with
      | none =>
        have he : analyze_email api_key (DeepSeekResponse.http200 content none)
            subject body = (_parse_ai_response content subject body, []) := by
          simp [analyze_email, hk]
        rw [he]
        exact ⟨dkeys_parse_ai_response content subject body,
          Or.inr ⟨content, none, rfl, rfl⟩⟩
      | some d =>
        exfalso
        simp [isFallbackCase, hk] at h
    | httpErr status =>
      have he : analyze_email api_key (DeepSeekResponse.httpErr status)
          subject body = (_fallback_analysis subject body,
            ["DeepSeek API error: " ++ toString status]) := by
        simp [analyze_email, hk]
      rw [he]
      exact ⟨dkeys_fallback_analysis subject body, Or.inl rfl⟩
    | exn msg =>
      have he : analyze_email api_key (DeepSeekResponse.exn msg)
          subject body = (_fallback_analysis subject body,
            ["AI analysis failed: " ++ msg]) := by
        simp [analyze_email, hk]
      rw [he]
      exact ⟨dkeys_fallback_analysis subject body, Or.inl rfl⟩

/-- C8 witness: on an HTTP 500 answer with a present API key,
`analyze_email` returns a six-key dict from the keyword fallback. -/
theorem analyze_email_fallback_safe_witness :
    dkeys (analyze_email "k" (DeepSeekResponse.httpErr 500) "s" "b").1 =
        analysisKeys ∧
      ((analyze_email "k" (DeepSeekResponse.httpErr 500) "s" "b").1 =
          _fallback_analysis "s" "b" ∨
        ∃ content parsed,
          DeepSeekResponse.httpErr 500 = DeepSeekResponse.http200 content parsed ∧
          (analyze_email "k" (DeepSeekResponse.httpErr 500) "s" "b").1 =
            _parse_ai_response content "s" "b") :=
  analyze_email_fallback_safe "k" (DeepSeekResponse.httpErr 500) "s" "b" rfl

/-- The three labelled fields of the fallback dict are the components of
`fallbackQuad` on the lowered full text. -/
theorem fallback_analysis_fields (subject body : String) :
    dget (_fallback_analysis subject body) "category" =
        some (Value.str (fallbackQuad (strLower (subject ++ " " ++ body))).1) ∧
      dget (_fallback_analysis subject body) "priority" =
        some (Value.str (fallbackQuad (strLower (subject ++ " " ++ body))).2.1) ∧
      dget (_fallback_analysis subject body) "sentiment" =
        some (Value.str (fallbackQuad (strLower (subject ++ " " ++ body))).2.2.1) := by
  rcases h : fallbackQuad (strLower (subject ++ " " ++ body)) with ⟨c, p, se, re⟩
  refine ⟨?_, ?_, ?_⟩ <;> simp [_fallback_analysis, h, dget]

/-- The fallback quad is always one of the four fixed tuples. -/
theorem fallbackQuad_cases (t : String) :
    fallbackQuad t =
        ("Complaint", "High", "Negative",
          "Customer expressed strong dissatisfaction") ∨
      fallbackQuad t =
        ("Feedback", "Low", "Positive", "Positive feedback detected") ∨
      fallbackQuad t =
        ("Service Inquiry", "Medium", "Neutral", "General inquiry detected") ∨
      fallbackQuad t = ("Other", "Low", "Neutral", "General communication") := by
  unfold fallbackQuad
  split_ifs <;> simp

/-- A complaint keyword in the text forces the complaint quad. -/
theorem fallbackQuad_complaint (t : String)
    (h : containsAny t complaintWords = true) :
    fallbackQuad t =
      ("Complaint", "High", "Negative",
        "Customer expressed strong dissatisfaction") := by
  simp [fallbackQuad, h]

/-- C9: the fallback classification's category is always one of the four
fixed categories; the category determines the priority and sentiment
(Complaint → High/Negative, Feedback → Low/Positive, Service Inquiry →
Medium/Neutral, Other → Low/Neutral); and complaint keywords take
precedence — a text containing both a complaint keyword and a feedback
keyword is classified Complaint. -/
theorem fallback_classification_fixed (subject body : String) :
    (dget (_fallback_analysis subject body) "category" =
          some (Value.str "Complaint") ∨
        dget (_fallback_analysis subject body) "category" =
          some (Value.str "Feedback") ∨
        dget (_fallback_analysis subject body) "category" =
          some (Value.str "Service Inquiry") ∨
        dget (_fallback_analysis subject body) "category" =
          some (Value.str "Other")) ∧
      (dget (_fallback_analysis subject body) "category" =
          some (Value.str "Complaint") →
        dget (_fallback_analysis subject body) "priority" =
            some (Value.str "High") ∧
          dget (_fallback_analysis subject body) "sentiment" =
            some (Value.str "Negative")) ∧
      (dget (_fallback_analysis subject body) "category" =
          some (Value.str "Feedback") →
        dget (_fallback_analysis subject body) "priority" =
            some (Value.str "Low") ∧
          dget (_fallback_analysis subject body) "sentiment" =
            some (Value.str "Positive")) ∧
      (dget (_fallback_analysis subject body) "category" =
          some (Value.str "Service Inquiry") →
        dget (_fallback_analysis subject body) "priority" =
            some (Value.str "Medium") ∧
          dget (_fallback_analysis subject body) "sentiment" =
            some (Value.str "Neutral")) ∧
      (dget (_fallback_analysis subject body) "category" =
          some (Value.str "Other") →
        dget (_fallback_analysis subject body) "priority" =
            some (Value.str "Low") ∧
          dget (_fallback_analysis subject body) "sentiment" =
            some (Value.str "Neutral")) ∧
      (containsAny (strLower (subject ++ " " ++ body)) complaintWords = true →
        containsAny (strLower (subject ++ " " ++ body)) feedbackWords = true →
        dget (_fallback_analysis subject body) "category" =
          some (Value.str "Complaint")) := by
  obtain ⟨hc, hp, hs⟩ := fallback_analysis_fields subject body
  rcases fallbackQuad_cases (strLower (subject ++ " " ++ body)) with h | h | h | h <;>
    rw [h] at hc hp hs
  · refine ⟨Or.inl hc, fun _ => ⟨hp, hs⟩, ?_, ?_, ?_, fun _ _ => hc⟩ <;>
      (intro hbad; rw [hc] at hbad;
       simp only [Option.some.injEq, Value.str.injEq] at hbad;
       exact absurd hbad (by decide))
  · refine ⟨Or.inr (Or.inl hc), ?_, fun _ => ⟨hp, hs⟩, ?_, ?_, ?_⟩
    · intro hbad; rw [hc] at hbad
      simp only [Option.some.injEq, Value.str.injEq] at hbad
      exact absurd hbad (by decide)
    · intro hbad; rw [hc] at hbad
      simp only [Option.some.injEq, Value.str.injEq] at hbad
      exact absurd hbad (by decide)
    · intro hbad; rw [hc] at hbad
      simp only [Option.some.injEq, Value.str.injEq] at hbad
      exact absurd hbad (by decide)
    · intro hcw _
      have h2 := fallbackQuad_complaint _ hcw
      rw [h] at h2
      exact absurd h2 (by decide)
  · refine ⟨Or.inr (Or.inr (Or.inl hc)), ?_, ?_, fun _ => ⟨hp, hs⟩, ?_, ?_⟩
    · intro hbad; rw [hc] at hbad
      simp only [Option.some.injEq, Value.str.injEq] at hbad
      exact absurd hbad (by decide)
    · intro hbad; rw [hc] at hbad
      simp only [Option.some.injEq, Value.str.injEq] at hbad
      exact absurd hbad (by decide)
    · intro hbad; rw [hc] at hbad
      simp only [Option.some.injEq, Value.str.injEq] at hbad
      exact absurd hbad (by decide)
    · intro hcw _
      have h2 := fallbackQuad_complaint _ hcw
      rw [h] at h2
      exact absurd h2 (by decide)
  · refine ⟨Or.inr (Or.inr (Or.inr hc)), ?_, ?_, ?_, fun _ => ⟨hp, hs⟩, ?_⟩
    · intro hbad; rw [hc] at hbad
      simp only [Option.some.injEq, Value.str.injEq] at hbad
      exact absurd hbad (by decide)
    · intro hbad; rw [hc] at hbad
      simp only [Option.some.injEq, Value.str.injEq] at hbad
      exact absurd hbad (by decide)
    · intro hbad; rw [hc] at hbad
      simp only [Option.some.injEq, Value.str.injEq] at hbad
      exact absurd hbad (by decide)
    · intro hcw _
      have h2 := fallbackQuad_complaint _ hcw
      rw [h] at h2
      exact absurd h2 (by decide)

/-- C9 witness: a text containing both the complaint keyword `refund` and
the feedback keyword `thank` is classified Complaint. -/
theorem fallback_classification_fixed_witness :
    dget (_fallback_analysis "Please refund my order" "thank you") "category" =
      some (Value.str "Complaint") :=
  (fallback_classification_fixed "Please refund my order" "thank you").2.2.2.2.2
    (by decide) (by decide)

/-- Unfolding one inbox email of the classification fold. -/
theorem classify_inbox_emails_cons (classify : Email → Option Classification)
    (a : Email) (rest : List Email) (cls : List Classification) :
    classify_inbox_emails classify (a :: rest) cls =
      classify_inbox_emails classify rest
        (if (cls.any fun c => c.email_id == a.id) = true then cls
         else
           match classify a with
           | some result => cls ++ [result]
           | none => cls) := rfl

/-- The classification fold only appends: the stored list is a prefix of
the result. -/
theorem classify_inbox_emails_append (classify : Email → Option Classification)
    (inbox : List Email) :
    ∀ cls, ∃ ext, classify_inbox_emails classify inbox cls = cls ++ ext := by
  induction inbox with
  | nil => exact fun cls => ⟨[], by simp [classify_inbox_emails]⟩
  | cons a rest ih =>
    intro cls
    rw [classify_inbox_emails_cons]
    by_cases hg : (cls.any fun c => c.email_id == a.id) = true
    · rw [if_pos hg]
      exact ih cls
    · rw [if_neg hg]
      cases hc : classify a with
      | none => exact ih cls
      | some r =>
        obtain ⟨ext, he⟩ := ih (cls ++ [r])
        exact ⟨[r] ++ ext, by rw [he, List.append_assoc]⟩

/-- If every inbox email is already covered — its id is stored, or the
classifier yields nothing for it — the fold appends nothing. -/
theorem classify_inbox_emails_skip (classify : Email → Option Classification)
    (inbox : List Email) :
    ∀ cls,
      (∀ e ∈ inbox,
        (cls.any fun c => c.email_id == e.id) = true ∨ classify e = none) →
      classify_inbox_emails classify inbox cls = cls := by
  induction inbox with
  | nil => exact fun cls _ => rfl
  | cons a rest ih =>
    intro cls h
    rw [classify_inbox_emails_cons]
    rcases h a (List.mem_cons_self a rest) with hg | hn
    · rw [if_pos hg]
      exact ih cls fun e he => h e (List.mem_cons_of_mem a he)
    · by_cases hg : (cls.any fun c => c.email_id == a.id) = true
      · rw [if_pos hg]
        exact ih cls fun e he => h e (List.mem_cons_of_mem a he)
      · rw [if_neg hg, hn]
        exact ih cls fun e he => h e (List.mem_cons_of_mem a he)

/-- After the fold, every inbox email is covered: its id appears in the
result, or the classifier yields nothing for it. -/
theorem classify_inbox_emails_covers (classify : Email → Option Classification)
    (hid : ∀ e r, classify e = some r → r.email_id = e.id)
    (inbox : List Email) :
    ∀ cls, ∀ e ∈ inbox,
      ((classify_inbox_emails classify inbox cls).any
          fun c => c.email_id == e.id) = true ∨
        classify e = none := by
  induction inbox with
  | nil => intro cls e he; simp at he
  | cons a rest ih =>
    intro cls e he
    rw [classify_inbox_emails_cons]
    rcases List.mem_cons.mp he with rfl | hin
    · by_cases hg : (cls.any fun c => c.email_id == e.id) = true
      · rw [if_pos hg]
        obtain ⟨ext, hext⟩ := classify_inbox_emails_append classify rest cls
        left
        rw [hext, List.any_append, hg, Bool.true_or]
      · rw [if_neg hg]
        cases hc : classify e with
        | none => exact Or.inr rfl
        | some r =>
          obtain ⟨ext, hext⟩ :=
            classify_inbox_emails_append classify rest (cls ++ [r])
          left
          rw [hext, List.any_append, List.any_append]
          have hr : (r.email_id == e.id) = true := by
            simp [hid e r hc]
          simp [hr]
    · exact ih _ e hin

/-- C10: (i) when every inbox email's id already appears among the stored
classifications, `classify_inbox_emails` appends nothing; (ii) with a
deterministic classifier that tags each result with the email's id the
way `classify_with_ai` does, running `classify_inbox_emails` a second
time on the same inbox leaves the classification list unchanged. -/
theorem classify_inbox_emails_idempotent
    (classify : Email → Option Classification) (inbox : List Email)
    (classifications : List Classification)
    (hid : ∀ e r, classify e = some r → r.email_id = e.id) :
    ((∀ e ∈ inbox,
        (classifications.any fun c => c.email_id == e.id) = true) →
      classify_inbox_emails classify inbox classifications = classifications) ∧
    classify_inbox_emails classify inbox
        (classify_inbox_emails classify inbox classifications) =
      classify_inbox_emails classify inbox classifications := by
  constructor
  · intro hall
    exact classify_inbox_emails_skip classify inbox classifications
      fun e he => Or.inl (hall e he)
  · exact classify_inbox_emails_skip classify inbox _
      fun e he => classify_inbox_emails_covers classify hid inbox
        classifications e he

/-- C10 witness: a one-email inbox with an always-classifying tagger is
classified once; the second run changes nothing. -/
theorem classify_inbox_emails_idempotent_witness :
    classify_inbox_emails wclassify10 [wemail10]
        (classify_inbox_emails wclassify10 [wemail10] []) =
      classify_inbox_emails wclassify10 [wemail10] [] :=
  (classify_inbox_emails_idempotent wclassify10 [wemail10] []
    (by
      intro e r h
      simp only [wclassify10, Option.some.injEq] at h
      rw [← h])).2
